import Mathlib

/-!
# Verification of the Activeledger transaction-builder SDK (Rust)

Shallow embedding of the packet value model, packet builder, transaction body
assembler, signee registry and top-level transaction builder from
`src/packet_builder/builder.rs`, `src/transaction_builder/body.rs`,
`src/transaction_builder/signee.rs` and `src/transaction_builder/builder.rs`.

Modelling conventions:
- `serde_json::Value` is embedded as `Value` restricted to the string / array /
  object fragment actually produced by this crate; objects are association
  lists. `HashMap` (and the serde object map) are embedded as association
  lists with overwrite-on-insert (`insertKV`); the unique-key invariant that
  Rust's `HashMap` maintains by construction appears as `Nodup` hypotheses.
- Rust methods taking `&mut self` become functions returning the updated
  value; fallible methods return `Except TxBuilderError`.
- The `unreachable!()` panic in `TransactionBody::add` is modelled by
  `Option`: `none` means the panic branch was hit, so a function whose result
  is wrapped in one more `Option` layer returns `none` exactly when the Rust
  code would panic.
- The external signer capability (`activeledger::key::{EllipticCurve, RSA}`)
  is out of scope of the repository; following the spec's external-interface
  section it is embedded as records carrying a name, a fallible signing
  function and an optional public PEM.
-/

/-- Embedding of the `serde_json::Value` fragment used by this crate:
strings, arrays and string-keyed objects (association lists). -/
inductive Value where
  | str : String → Value
  | arr : List Value → Value
  | obj : List (String × Value) → Value

/-- Insert-or-overwrite into an association list: the embedding of
`HashMap::insert` and of serde's `json[key] = value` on objects. -/
def insertKV {α : Type} (m : List (String × α)) (k : String) (v : α) :
    List (String × α) :=
  match m with
  | [] => [(k, v)]
  | (k', v') :: rest => if k' = k then (k, v) :: rest else (k', v') :: insertKV rest k v

/-- Lookup in an association list: the embedding of `HashMap::get`. -/
def lookupKV {α : Type} (m : List (String × α)) (k : String) : Option α :=
  match m with
  | [] => none
  | (k', v') :: rest => if k' = k then some v' else lookupKV rest k

/-- One character of JSON string escaping (used by serialization). -/
def escapeChar (c : Char) : List Char :=
  if c = '"' then ['\\', '"']
  else if c = '\\' then ['\\', '\\']
  else if c = '\n' then ['\\', 'n']
  else if c = '\r' then ['\\', 'r']
  else if c = '\t' then ['\\', 't']
  else [c]

/-- JSON string escaping (used by serialization). -/
def escapeString (s : String) : String :=
  String.mk (s.data.foldr (fun c acc => escapeChar c ++ acc) [])

mutual
/-- Embedding of `serde_json`'s `Value::to_string()` (compact serialization)
for the fragment in use. -/
def Value.serialize (v : Value) : String :=
  match v with
  | .str s => "\"" ++ escapeString s ++ "\""
  | .arr l => "[" ++ serializeArr l ++ "]"
  | .obj m => "\x7b" ++ serializeObj m ++ "\x7d"
termination_by sizeOf v
decreasing_by all_goals simp_wf <;> omega

/-- Comma-separated serialization of array elements. -/
def serializeArr (l : List Value) : String :=
  match l with
  | [] => ""
  | [v] => Value.serialize v
  | v :: rest => Value.serialize v ++ "," ++ serializeArr rest
termination_by sizeOf l
decreasing_by all_goals simp_wf <;> omega

/-- Comma-separated serialization of object entries. -/
def serializeObj (m : List (String × Value)) : String :=
  match m with
  | [] => ""
  | [(k, v)] => "\"" ++ escapeString k ++ "\":" ++ Value.serialize v
  | (k, v) :: rest =>
      "\"" ++ escapeString k ++ "\":" ++ Value.serialize v ++ "," ++ serializeObj rest
termination_by sizeOf m
decreasing_by all_goals simp_wf <;> omega
end

/-- Embedding of `TxBuilderError` from `src/error.rs` (each variant carries
its numeric error code). -/
inductive TxBuilderError where
  | BuildError : Nat → TxBuilderError
  | JsonError : Nat → TxBuilderError
  | PacketError : Nat → TxBuilderError
  | TxBodyError : Nat → TxBuilderError
  | TxBuildError : Nat → TxBuilderError
  | TxGenerateError : Nat → TxBuilderError
  | KeyError : Nat → TxBuilderError
deriving DecidableEq, Repr

/-- Embedding of `PacketValue` from `src/packet_builder/mod.rs`: the
restricted recursive value model (strings, arrays, string-keyed objects). -/
inductive PacketValue where
  | str : String → PacketValue
  | arr : List PacketValue → PacketValue
  | obj : List (String × PacketValue) → PacketValue

/-- Embedding of `PacketData` from `src/packet_builder/builder.rs`. -/
structure PacketData where
  data : Option PacketValue
  json : Option Value
  is_json : Bool
  built : Option String

/-- Rust `PacketData::new` (private). -/
def PacketData.new : PacketData :=
  { data := none, json := none, is_json := false, built := none }

/-- Rust `PacketData::add` (private): store a packet value. -/
def PacketData.add (d : PacketData) (object : PacketValue) : PacketData :=
  { d with data := some object }

/-- Rust `PacketData::add_map` (private): store an object packet value. -/
def PacketData.add_map (d : PacketData) (map : List (String × PacketValue)) :
    PacketData :=
  { d with data := some (PacketValue.obj map) }

/-- Rust `PacketData::add_json` (private): store an externally supplied JSON value
and mark the data JSON-sourced. -/
def PacketData.add_json (d : PacketData) (json : Value) : PacketData :=
  { d with json := some json, is_json := true }

/-- Rust `PacketData::get_map` (private). -/
def PacketData.get_map (d : PacketData) : Option PacketValue :=
  d.data

/-- Rust `PacketData::set_built` (private): record the JSON form and its
serialized snapshot. -/
def PacketData.set_built (d : PacketData) (data : Value) : PacketData :=
  { d with json := some data, is_json := true, built := some (Value.serialize data) }

/-- Rust `PacketData::get_string`: the serialized snapshot, or `PacketError 3000`
if `build` has not produced one. -/
def PacketData.get_string (d : PacketData) : Except TxBuilderError String :=
  match d.built with
  | some data => Except.ok data
  | none => Except.error (TxBuilderError.PacketError 3000)

/-- Rust `PacketData::get`: the JSON form, or `PacketError 3001` if absent. -/
def PacketData.get (d : PacketData) : Except TxBuilderError Value :=
  match d.json with
  | some json => Except.ok json
  | none => Except.error (TxBuilderError.PacketError 3001)

/-- Embedding of `PacketBuilder` from `src/packet_builder/builder.rs`. -/
structure PacketBuilder where
  data : PacketData

/-- Rust `PacketBuilder::new`: an object root seeds the map via `add_map`, any
other root is stored as a single unit via `add`. -/
def PacketBuilder.new (data : PacketValue) : PacketBuilder :=
  match data with
  | PacketValue.obj m => { data := PacketData.new.add_map m }
  | other => { data := PacketData.new.add other }

/-- Rust `PacketBuilder::new_json`: store a generic JSON value directly. -/
def PacketBuilder.new_json (data : Value) : PacketBuilder :=
  { data := PacketData.new.add_json data }

/-- Rust `PacketBuilder::from_string`. -/
def PacketBuilder.from_string (data : String) : PacketValue :=
  PacketValue.str data

mutual
/-- Rust `PacketBuilder::array_tojson` (private): walk an array value and convert
it to JSON; a non-array argument yields `JsonError 2000`. -/
def PacketBuilder.array_tojson (array : PacketValue) :
    Except TxBuilderError Value :=
  match array with
  | PacketValue.arr elems => do
      let holder ← PacketBuilder.arrayElems elems
      pure (Value.arr holder)
  | _ => Except.error (TxBuilderError.JsonError 2000)
termination_by sizeOf array
decreasing_by all_goals simp_wf <;> omega

/-- The element loop of `array_tojson`: strings convert directly, objects via
`object_tojson`, arrays recursively. -/
def PacketBuilder.arrayElems (l : List PacketValue) :
    Except TxBuilderError (List Value) :=
  match l with
  | [] => pure []
  | PacketValue.str v :: rest => do
      let ds ← PacketBuilder.arrayElems rest
      pure (Value.str v :: ds)
  | PacketValue.obj o :: rest => do
      let d ← PacketBuilder.object_tojson o
      let ds ← PacketBuilder.arrayElems rest
      pure (d :: ds)
  | PacketValue.arr a :: rest => do
      let d ← PacketBuilder.array_tojson (PacketValue.arr a)
      let ds ← PacketBuilder.arrayElems rest
      pure (d :: ds)
termination_by sizeOf l
decreasing_by all_goals simp_wf <;> omega

/-- Rust `PacketBuilder::object_tojson` (private): walk an object value (a map)
and convert it to JSON, remapping a failed nested object conversion to
`JsonError 2001`. -/
def PacketBuilder.object_tojson (map : List (String × PacketValue)) :
    Except TxBuilderError Value :=
  PacketBuilder.objectEntries [] map
termination_by sizeOf map + 1
decreasing_by all_goals simp_wf <;> omega

/-- The entry loop of `object_tojson`, accumulating `json[key] = data`
insertions into the object under construction. -/
def PacketBuilder.objectEntries (acc : List (String × Value))
    (l : List (String × PacketValue)) : Except TxBuilderError Value :=
  match l with
  | [] => pure (Value.obj acc)
  | (k, PacketValue.str v) :: rest =>
      PacketBuilder.objectEntries (insertKV acc k (Value.str v)) rest
  | (k, PacketValue.obj o) :: rest =>
      match PacketBuilder.object_tojson o with
      | Except.ok d => PacketBuilder.objectEntries (insertKV acc k d) rest
      | Except.error _ => Except.error (TxBuilderError.JsonError 2001)
  | (k, PacketValue.arr a) :: rest => do
      let d ← PacketBuilder.array_tojson (PacketValue.arr a)
      PacketBuilder.objectEntries (insertKV acc k d) rest
termination_by sizeOf l
decreasing_by all_goals simp_wf <;> omega
end

/-- The entry loop of `PacketBuilder::to_json` (private): same walk as
`objectEntries`, but nested object conversion errors propagate unchanged. -/
def PacketBuilder.topEntries (acc : List (String × Value))
    (l : List (String × PacketValue)) : Except TxBuilderError Value :=
  match l with
  | [] => pure (Value.obj acc)
  | (k, PacketValue.str v) :: rest =>
      PacketBuilder.topEntries (insertKV acc k (Value.str v)) rest
  | (k, PacketValue.obj o) :: rest => do
      let d ← PacketBuilder.object_tojson o
      PacketBuilder.topEntries (insertKV acc k d) rest
  | (k, PacketValue.arr a) :: rest => do
      let d ← PacketBuilder.array_tojson (PacketValue.arr a)
      PacketBuilder.topEntries (insertKV acc k d) rest
termination_by sizeOf l

/-- Rust `PacketBuilder::to_json` (private): convert the stored map to JSON.
Note that a non-object root falls through the `if let` and yields the empty
object (no error). -/
def PacketBuilder.to_json (map : PacketValue) : Except TxBuilderError Value :=
  match map with
  | PacketValue.obj m => PacketBuilder.topEntries [] m
  | _ => pure (Value.obj [])

/-- Rust `PacketBuilder::build`: JSON-sourced data is re-emitted unchanged;
value-sourced data is converted via `to_json`; both snapshot the serialized
form via `set_built`. Returns the (cloned) updated `PacketData`. -/
def PacketBuilder.build (b : PacketBuilder) :
    Except TxBuilderError PacketData :=
  if b.data.is_json then
    match b.data.get with
    | Except.error e => Except.error e
    | Except.ok json => Except.ok (b.data.set_built json)
  else
    match b.data.get_map with
    | none => Except.error (TxBuilderError.BuildError 1000)
    | some map =>
      match PacketBuilder.to_json map with
      | Except.error e => Except.error e
      | Except.ok serialized => Except.ok (b.data.set_built serialized)

example :
    PacketBuilder.to_json
      (PacketValue.obj [("a", PacketValue.str "b"),
        ("c", PacketValue.arr [PacketValue.str "d"])]) =
    Except.ok (Value.obj [("a", Value.str "b"),
      ("c", Value.arr [Value.str "d"])]) := by
  simp [PacketBuilder.to_json, PacketBuilder.topEntries, PacketBuilder.array_tojson,
    PacketBuilder.arrayElems, PacketBuilder.object_tojson, PacketBuilder.objectEntries,
    insertKV, pure, Except.pure, bind, Except.bind]

/-- Embedding of `TransactionBody` from `src/transaction_builder/body.rs`.
The Rust field `namespace` is a Lean keyword and is embedded as `nspace`. -/
structure TransactionBody where
  entry : Option Value
  contract : Value
  nspace : Value
  input : Value
  output : Option Value
  readonly : Option Value
  json : Option Value

/-- Rust `TransactionBody::new`: store the three required values, all optional
fields unset. -/
def TransactionBody.new (contract nspace input : Value) : TransactionBody :=
  { entry := none, contract := contract, nspace := nspace, input := input,
    output := none, readonly := none, json := none }

/-- Rust `TransactionBody::add`: set one of the optional fields; any other key
hits the `unreachable!()` panic, embedded as `none`. -/
def TransactionBody.add (t : TransactionBody) (key : String) (data : Value) :
    Option TransactionBody :=
  if key = "entry" then some { t with entry := some data }
  else if key = "output" then some { t with output := some data }
  else if key = "readonly" then some { t with readonly := some data }
  else none

/-- Rust `TransactionBody::build`: emit the `$tx` object (`$contract`,
`$namespace`, `$i`, then `$entry` / `$o` / `$r` for whichever optional fields
are set), cache it in `json`, and return it. -/
def TransactionBody.build (t : TransactionBody) : TransactionBody × Value :=
  let j0 := insertKV ([] : List (String × Value)) "$contract" t.contract
  let j1 := insertKV j0 "$namespace" t.nspace
  let j2 := insertKV j1 "$i" t.input
  let j3 := match t.entry with
    | some entry => insertKV j2 "$entry" entry
    | none => j2
  let j4 := match t.output with
    | some output => insertKV j3 "$o" output
    | none => j3
  let j5 := match t.readonly with
    | some readonly => insertKV j4 "$r" readonly
    | none => j4
  let v := Value.obj j5
  ({ t with json := some v }, v)

/-- Rust `TransactionBody::get`: the cached `$tx` JSON, or `TxBodyError 000` if
`build` has not run. -/
def TransactionBody.get (t : TransactionBody) : Except TxBuilderError Value :=
  match t.json with
  | some json => Except.ok json
  | none => Except.error (TxBuilderError.TxBodyError 000)

/-- Modelled from the spec: the external elliptic-curve key of the
`activeledger` crate (out of scope here) — a name, the fallible signing
primitive `sign(bytes) -> signature | error`, and the fallible public-PEM
extraction `public_pem(key) -> string | error`. -/
structure EllipticCurve where
  name : String
  signFn : String → Option String
  publicPem : Option String

/-- Modelled from the spec: the external RSA key of the `activeledger`
crate, with the same capability surface as `EllipticCurve`. -/
structure RSA where
  name : String
  signFn : String → Option String
  publicPem : Option String

/-- Embedding of `Key` from `src/transaction_builder/builder.rs`. -/
inductive Key where
  | Rsa : RSA → Key
  | Ec : EllipticCurve → Key

/-- Embedding of `Signee` from `src/transaction_builder/signee.rs`. -/
structure Signee where
  streamid : String
  key : Key

/-- Embedding of `Signees` from `src/transaction_builder/signee.rs`. -/
structure Signees where
  keys : List Signee

/-- Rust `Signees::new`: empty registry. -/
def Signees.new : Signees := { keys := [] }

/-- Rust `Signees::add`: append a signee bound to an explicit stream id. -/
def Signees.add (s : Signees) (key : Key) (streamid : String) : Signees :=
  { keys := s.keys ++ [{ streamid := streamid, key := key }] }

/-- Rust `Signees::add_selfsign`: append a signee whose stream id is the key's
own name. -/
def Signees.add_selfsign (s : Signees) (key : Key) : Signees :=
  let name := match key with
    | Key.Ec k => k.name
    | Key.Rsa k => k.name
  { keys := s.keys ++ [{ streamid := name, key := key }] }

/-- Rust `Signees::get`: snapshot of the registry. -/
def Signees.get (s : Signees) : List Signee := s.keys

/-- Embedding of `TransactionBuilder` from
`src/transaction_builder/builder.rs`. -/
structure TransactionBuilder where
  packet_data : List (String × Value)
  tx_data : List (String × Value)
  packet : Option TransactionBody
  tx : Option Value
  sigs : List (String × String)

/-- Rust `TransactionBuilder::new`: seed `namespace` and `contract`. -/
def TransactionBuilder.new (nspace contract : String) : TransactionBuilder :=
  { packet_data := insertKV (insertKV [] "namespace" (Value.str nspace))
      "contract" (Value.str contract),
    tx_data := [], packet := none, tx := none, sigs := [] }

/-- Rust `TransactionBuilder::new_blank`: no data. -/
def TransactionBuilder.new_blank : TransactionBuilder :=
  { packet_data := [], tx_data := [], packet := none, tx := none, sigs := [] }

/-- Rust `TransactionBuilder::get`: the cached transaction as a string, or
`TxBuildError 5000`. -/
def TransactionBuilder.get (b : TransactionBuilder) :
    Except TxBuilderError String :=
  match b.tx with
  | some tx => Except.ok (Value.serialize tx)
  | none => Except.error (TxBuilderError.TxBuildError 5000)

/-- Rust `TransactionBuilder::get_json`: the cached transaction as JSON, or
`TxBuildError 5000`. -/
def TransactionBuilder.get_json (b : TransactionBuilder) :
    Except TxBuilderError Value :=
  match b.tx with
  | some tx => Except.ok tx
  | none => Except.error (TxBuilderError.TxBuildError 5000)

/-- Rust `TransactionBuilder::territoriality` setter. -/
def TransactionBuilder.territoriality (b : TransactionBuilder)
    (territoriality : String) : TransactionBuilder :=
  { b with tx_data := insertKV b.tx_data "territoriality" (Value.str territoriality) }

/-- Rust `TransactionBuilder::entry` setter. -/
def TransactionBuilder.entry (b : TransactionBuilder) (entry : String) :
    TransactionBuilder :=
  { b with packet_data := insertKV b.packet_data "entry" (Value.str entry) }

/-- Rust `TransactionBuilder::contract` setter. -/
def TransactionBuilder.contract (b : TransactionBuilder) (contract : String) :
    TransactionBuilder :=
  { b with packet_data := insertKV b.packet_data "contract" (Value.str contract) }

/-- Rust `TransactionBuilder::namespace` setter (`namespace` is a Lean keyword,
hence `nspace`). -/
def TransactionBuilder.nspace (b : TransactionBuilder) (nspace : String) :
    TransactionBuilder :=
  { b with packet_data := insertKV b.packet_data "namespace" (Value.str nspace) }

/-- Rust `TransactionBuilder::input`: store the built JSON of the given
`PacketData` under `input`; an unbuilt `PacketData` yields
`TxBuildError 5001`. -/
def TransactionBuilder.input (b : TransactionBuilder) (input : PacketData) :
    Except TxBuilderError TransactionBuilder :=
  match input.get with
  | Except.ok data =>
      Except.ok { b with packet_data := insertKV b.packet_data "input" data }
  | Except.error _ => Except.error (TxBuilderError.TxBuildError 5001)

/-- Rust `TransactionBuilder::output`: as `input`, error code 5002. -/
def TransactionBuilder.output (b : TransactionBuilder) (output : PacketData) :
    Except TxBuilderError TransactionBuilder :=
  match output.get with
  | Except.ok data =>
      Except.ok { b with packet_data := insertKV b.packet_data "output" data }
  | Except.error _ => Except.error (TxBuilderError.TxBuildError 5002)

/-- Rust `TransactionBuilder::readonly`: as `input`, error code 5003. -/
def TransactionBuilder.readonly (b : TransactionBuilder)
    (readonly : PacketData) : Except TxBuilderError TransactionBuilder :=
  match readonly.get with
  | Except.ok data =>
      Except.ok { b with packet_data := insertKV b.packet_data "readonly" data }
  | Except.error _ => Except.error (TxBuilderError.TxBuildError 5003)

/-- Rust `TransactionBuilder::selfsign`: set the selfsign flag to `"true"`. -/
def TransactionBuilder.selfsign (b : TransactionBuilder) : TransactionBuilder :=
  { b with tx_data := insertKV b.tx_data "selfsign" (Value.str "true") }

/-- Rust `TransactionBuilder::sign_ec` (private): elliptic-curve signing; failure
is `KeyError 7000`. -/
def TransactionBuilder.sign_ec (tx : String) (key : EllipticCurve) :
    Except TxBuilderError String :=
  match key.signFn tx with
  | some sig => Except.ok sig
  | none => Except.error (TxBuilderError.KeyError 7000)

/-- Rust `TransactionBuilder::sign_rsa` (private): RSA signing; failure is
`KeyError 7001`. -/
def TransactionBuilder.sign_rsa (tx : String) (key : RSA) :
    Except TxBuilderError String :=
  match key.signFn tx with
  | some sig => Except.ok sig
  | none => Except.error (TxBuilderError.KeyError 7001)

/-- Rust `TransactionBuilder::sign_internal` (private): dispatch on key kind. -/
def TransactionBuilder.sign_internal (data : String) (key : Key) :
    Except TxBuilderError String :=
  match key with
  | Key.Rsa key => TransactionBuilder.sign_rsa data key
  | Key.Ec key => TransactionBuilder.sign_ec data key

/-- Rust `TransactionBuilder::get_pem` (private): the key's public PEM; failure
is `KeyError 7002`. -/
def TransactionBuilder.get_pem (key : Key) : Except TxBuilderError String :=
  match key with
  | Key.Rsa key =>
    match key.publicPem with
    | some pem => Except.ok pem
    | none => Except.error (TxBuilderError.KeyError 7002)
  | Key.Ec key =>
    match key.publicPem with
    | some pem => Except.ok pem
    | none => Except.error (TxBuilderError.KeyError 7002)

/-- The signing loop shared by `build` and `sign`: for each signee in order,
sign the serialized packet and insert the signature keyed by stream id; a
failure stops the loop, keeping the signatures inserted so far (the Rust
loop mutates `self.sigs` in place before the `?` early return). -/
def TransactionBuilder.signLoop (sigs : List (String × String)) (data : String) :
    List Signee → List (String × String) × Except TxBuilderError Unit
  | [] => (sigs, Except.ok ())
  | signee :: rest =>
    match TransactionBuilder.sign_internal data signee.key with
    | Except.error e => (sigs, Except.error e)
    | Except.ok signature =>
        TransactionBuilder.signLoop (insertKV sigs signee.streamid signature) data rest

/-- The `$sigs` JSON object: `json!(self.sigs)` on the signature map. -/
def sigsJson (sigs : List (String × String)) : Value :=
  Value.obj (sigs.map (fun p => (p.1, Value.str p.2)))

/-- The keys skipped by `build`'s extra-data loop
(`let checked = ["contract", "namespace", "input"]`). -/
def checkedKeys : List String := ["contract", "namespace", "input"]

/-- The extra-data loop of `build`: every `packet_data` entry whose key is
not in `checked` is passed to `TransactionBody::add`; `none` means the
`unreachable!()` panic was hit. -/
def TransactionBuilder.addExtras (t : TransactionBody) :
    List (String × Value) → Option TransactionBody
  | [] => some t
  | (k, v) :: rest =>
    if k ∈ checkedKeys then TransactionBuilder.addExtras t rest
    else
      match t.add k v with
      | none => none
      | some t' => TransactionBuilder.addExtras t' rest

/-- Rust `TransactionBuilder::sign`: re-sign the cached body (error 5004 if no
body, propagating the body's own error if it was never built), merge the
new signatures into the map, then replace `$sigs` in the cached envelope
(error 5005 if no envelope). Returns the updated builder and the result;
on failure the builder keeps any signatures inserted before the failure. -/
def TransactionBuilder.sign (b : TransactionBuilder) (signees : Signees) :
    TransactionBuilder × Except TxBuilderError Unit :=
  match b.packet with
  | none => (b, Except.error (TxBuilderError.TxBuildError 5004))
  | some packet =>
    match packet.get with
    | Except.error e => (b, Except.error e)
    | Except.ok packetJson =>
      match TransactionBuilder.signLoop b.sigs (Value.serialize packetJson)
          signees.get with
      | (sigs', Except.error e) => ({ b with sigs := sigs' }, Except.error e)
      | (sigs', Except.ok _) =>
        match b.tx with
        | none => ({ b with sigs := sigs' },
            Except.error (TxBuilderError.TxBuildError 5005))
        | some json =>
          let json' := match json with
            | Value.obj m => Value.obj (insertKV m "$sigs" (sigsJson sigs'))
            | other => other
          ({ b with sigs := sigs', tx := some json' }, Except.ok ())

/-- Rust `TransactionBuilder::build`: validate `contract` / `namespace` / `input`
(errors 5006 / 5007 / 5008 in that order), assemble the `TransactionBody`,
copy the remaining packet fields via `add`, cache the built body, sign the
serialized `$tx` for every signee, and assemble and cache the envelope
(`$tx`, `$sigs`, then `$territoriality` / `$selfsign` if set).

Returns `none` when the `unreachable!()` panic in `TransactionBody::add` is
hit; otherwise `some` of the updated builder and the result. Note that the
cached body and the partially extended signature map persist when a
signature attempt fails (the Rust mutations precede the `?` early return). -/
def TransactionBuilder.build (b : TransactionBuilder) (signees : Signees) :
    Option (TransactionBuilder × Except TxBuilderError String) :=
  match lookupKV b.packet_data "contract" with
  | none => some (b, Except.error (TxBuilderError.TxBuildError 5006))
  | some contract =>
    match lookupKV b.packet_data "namespace" with
    | none => some (b, Except.error (TxBuilderError.TxBuildError 5007))
    | some nspace =>
      match lookupKV b.packet_data "input" with
      | none => some (b, Except.error (TxBuilderError.TxBuildError 5008))
      | some input =>
        match TransactionBuilder.addExtras
            (TransactionBody.new contract nspace input) b.packet_data with
        | none => none
        | some tx1 =>
          let built := TransactionBody.build tx1
          let env0 := insertKV ([] : List (String × Value)) "$tx" built.2
          match TransactionBuilder.signLoop b.sigs (Value.serialize built.2)
              signees.get with
          | (sigs', Except.error e) =>
              some ({ b with packet := some built.1, sigs := sigs' },
                Except.error e)
          | (sigs', Except.ok _) =>
            let env1 := insertKV env0 "$sigs" (sigsJson sigs')
            let env2 := match lookupKV b.tx_data "territoriality" with
              | some data => insertKV env1 "$territoriality" data
              | none => env1
            let env3 := match lookupKV b.tx_data "selfsign" with
              | some data => insertKV env2 "$selfsign" data
              | none => env2
            let env := Value.obj env3
            some ({ b with
                      packet := some built.1, sigs := sigs', tx := some env },
              Except.ok (Value.serialize env))

/-- Rust `TransactionBuilder::onboard_tx`: build the self-signed onboarding
transaction for a key (namespace `"default"`, contract `"onboard"`, input
`{ name: { "type": kind, "publicKey": pem } }`, one self-signing signee).
The outer `Option` layer propagates the (unreachable) panic case of
`build`. -/
def TransactionBuilder.onboard_tx (key : Key) :
    Option (Except TxBuilderError String) :=
  let key_name := match key with
    | Key.Rsa k => k.name
    | Key.Ec k => k.name
  let key_type := match key with
    | Key.Rsa _ => "rsa"
    | Key.Ec _ => "secp256k1"
  match TransactionBuilder.get_pem key with
  | Except.error e => some (Except.error e)
  | Except.ok pem =>
    let input := PacketValue.obj [(key_name,
      PacketValue.obj [("type", PacketValue.str key_type),
        ("publicKey", PacketValue.str pem)])]
    match (PacketBuilder.new input).build with
    | Except.error e => some (Except.error e)
    | Except.ok inputData =>
      let signees := Signees.new.add_selfsign key
      match (((TransactionBuilder.new "default" "onboard").selfsign).input
          inputData) with
      | Except.error e => some (Except.error e)
      | Except.ok b =>
        match b.build signees with
        | none => none
        | some (_, Except.error e) => some (Except.error e)
        | some (_, Except.ok tx) => some (Except.ok tx)

/-! ## Association-list lemmas -/

/-- Looking up the key just inserted returns the inserted value. -/
theorem lookupKV_insertKV_self {α : Type} (m : List (String × α)) (k : String)
    (v : α) : lookupKV (insertKV m k v) k = some v := by
  induction m with
  | nil => simp [insertKV, lookupKV]
  | cons p rest ih =>
    obtain ⟨k', v'⟩ := p
    by_cases h : k' = k
    · simp [insertKV, lookupKV, h]
    · simp [insertKV, lookupKV, h, ih]

/-- Inserting under one key does not change lookups under another. -/
theorem lookupKV_insertKV_ne {α : Type} (m : List (String × α)) {k k' : String}
    (v : α) (h : k' ≠ k) : lookupKV (insertKV m k v) k' = lookupKV m k' := by
  induction m with
  | nil => simp [insertKV, lookupKV, Ne.symm h]
  | cons p rest ih =>
    obtain ⟨k'', v''⟩ := p
    by_cases h2 : k'' = k
    · subst h2
      simp [insertKV, lookupKV, Ne.symm h, h]
    · by_cases h3 : k'' = k'
      · subst h3
        simp [insertKV, lookupKV, h2]
      · simp [insertKV, lookupKV, h2, h3, ih]

/-- A key absent from the key list looks up to `none`. -/
theorem lookupKV_eq_none_of_not_mem {α : Type} {m : List (String × α)}
    {k : String} (h : k ∉ m.map Prod.fst) : lookupKV m k = none := by
  induction m with
  | nil => simp [lookupKV]
  | cons p rest ih =>
    simp only [List.map_cons, List.mem_cons] at h
    push_neg at h
    simp [lookupKV, Ne.symm h.1, ih h.2]

/-- A successful lookup means the key is in the key list. -/
theorem mem_keys_of_lookupKV {α : Type} {m : List (String × α)} {k : String}
    {v : α} (h : lookupKV m k = some v) : k ∈ m.map Prod.fst := by
  induction m with
  | nil => simp [lookupKV] at h
  | cons p rest ih =>
    obtain ⟨k', v'⟩ := p
    by_cases h2 : k' = k
    · simp [h2]
    · simp only [lookupKV, h2, if_false] at h
      simp [ih h]

/-- Inserting a fresh key appends the binding. -/
theorem insertKV_append_of_not_mem {α : Type} {m : List (String × α)}
    {k : String} (v : α) (h : k ∉ m.map Prod.fst) :
    insertKV m k v = m ++ [(k, v)] := by
  induction m with
  | nil => simp [insertKV]
  | cons p rest ih =>
    simp only [List.map_cons, List.mem_cons] at h
    push_neg at h
    simp [insertKV, Ne.symm h.1, ih h.2]

/-- Insertion preserves definedness of every lookup. -/
theorem lookupKV_insertKV_isSome {α : Type} (m : List (String × α))
    (k k' : String) (v : α) (h : (lookupKV m k').isSome) :
    (lookupKV (insertKV m k v) k').isSome := by
  by_cases h2 : k' = k
  · subst h2
    simp [lookupKV_insertKV_self]
  · rw [lookupKV_insertKV_ne m v h2]
    exact h

/-- Lookup through a value-mapping of an association list. -/
theorem lookupKV_map_value {α β : Type} (m : List (String × α)) (k : String)
    (f : α → β) :
    lookupKV (m.map (fun p => (p.1, f p.2))) k = (lookupKV m k).map f := by
  induction m with
  | nil => simp [lookupKV]
  | cons p rest ih =>
    obtain ⟨k', v'⟩ := p
    by_cases h : k' = k
    · simp [lookupKV, h]
    · simp [lookupKV, h, ih]

/-! ## Well-formedness of packet values

Rust's `HashMap` cannot hold duplicate keys; in the association-list
embedding this invariant becomes the following recursive predicate. -/

mutual
/-- Every object in the tree has pairwise-distinct keys. -/
def PacketValue.wf : PacketValue → Prop
  | PacketValue.str _ => True
  | PacketValue.arr l => PacketValue.wfList l
  | PacketValue.obj m => (m.map Prod.fst).Nodup ∧ PacketValue.wfObj m
termination_by v => sizeOf v
decreasing_by all_goals simp_wf <;> omega

/-- Predicate `wf` for every element of an array. -/
def PacketValue.wfList : List PacketValue → Prop
  | [] => True
  | x :: rest => PacketValue.wf x ∧ PacketValue.wfList rest
termination_by l => sizeOf l
decreasing_by all_goals simp_wf <;> omega

/-- Predicate `wf` for every value of an object. -/
def PacketValue.wfObj : List (String × PacketValue) → Prop
  | [] => True
  | (_, v) :: rest => PacketValue.wf v ∧ PacketValue.wfObj rest
termination_by l => sizeOf l
decreasing_by all_goals simp_wf <;> omega
end

/-! ## The structural conversion and the isomorphism relation -/

mutual
/-- The structural `PacketValue` → JSON conversion that the converters in
`PacketBuilder` are proved to implement on well-formed trees. -/
def pvJson : PacketValue → Value
  | PacketValue.str s => Value.str s
  | PacketValue.arr l => Value.arr (pvJsonList l)
  | PacketValue.obj m => Value.obj (pvJsonObj m)
termination_by v => sizeOf v
decreasing_by all_goals simp_wf <;> omega

/-- Pointwise structural conversion of an array. -/
def pvJsonList : List PacketValue → List Value
  | [] => []
  | x :: rest => pvJson x :: pvJsonList rest
termination_by l => sizeOf l
decreasing_by all_goals simp_wf <;> omega

/-- Pointwise structural conversion of object entries. -/
def pvJsonObj : List (String × PacketValue) → List (String × Value)
  | [] => []
  | (k, v) :: rest => (k, pvJson v) :: pvJsonObj rest
termination_by l => sizeOf l
decreasing_by all_goals simp_wf <;> omega
end

mutual
/-- Structural isomorphism between a `PacketValue` tree and a JSON value, as
described by the spec: strings map to equal strings, arrays map elementwise
in order, objects map entrywise with equal keys. -/
def IsoVal : PacketValue → Value → Prop
  | PacketValue.str s, Value.str t => s = t
  | PacketValue.arr l, Value.arr w => IsoList l w
  | PacketValue.obj m, Value.obj w => IsoObj m w
  | _, _ => False
termination_by v _ => sizeOf v
decreasing_by all_goals simp_wf <;> omega

/-- Elementwise isomorphism of arrays, order preserved. -/
def IsoList : List PacketValue → List Value → Prop
  | [], [] => True
  | x :: xs, y :: ys => IsoVal x y ∧ IsoList xs ys
  | _, _ => False
termination_by l _ => sizeOf l
decreasing_by all_goals simp_wf <;> omega

/-- Entrywise isomorphism of objects: equal keys, isomorphic values. -/
def IsoObj : List (String × PacketValue) → List (String × Value) → Prop
  | [], [] => True
  | (k, v) :: xs, (k', w) :: ys => k = k' ∧ IsoVal v w ∧ IsoObj xs ys
  | _, _ => False
termination_by m _ => sizeOf m
decreasing_by all_goals simp_wf <;> omega
end

mutual
/-- The structural conversion is isomorphic to its input. -/
theorem pvJson_iso (v : PacketValue) : IsoVal v (pvJson v) := by
  match v with
  | PacketValue.str s =>
    simp only [pvJson, IsoVal]
  | PacketValue.arr l =>
    simp only [pvJson, IsoVal]
    exact pvJsonList_iso l
  | PacketValue.obj m =>
    simp only [pvJson, IsoVal]
    exact pvJsonObj_iso m
termination_by sizeOf v
decreasing_by all_goals simp_wf <;> omega

/-- Elementwise isomorphism for converted arrays. -/
theorem pvJsonList_iso (l : List PacketValue) : IsoList l (pvJsonList l) := by
  match l with
  | [] =>
    simp only [pvJsonList, IsoList]
  | x :: rest =>
    simp only [pvJsonList, IsoList]
    exact ⟨pvJson_iso x, pvJsonList_iso rest⟩
termination_by sizeOf l
decreasing_by all_goals simp_wf <;> omega

/-- Entrywise isomorphism for converted objects. -/
theorem pvJsonObj_iso (m : List (String × PacketValue)) :
    IsoObj m (pvJsonObj m) := by
  match m with
  | [] =>
    simp only [pvJsonObj, IsoObj]
  | (k, v) :: rest =>
    simp only [pvJsonObj, IsoObj]
    exact ⟨trivial, pvJson_iso v, pvJsonObj_iso rest⟩
termination_by sizeOf m
decreasing_by all_goals simp_wf <;> omega
end


mutual
/-- On well-formed arrays `array_tojson` succeeds with the structural
conversion. -/
theorem array_tojson_wf (l : List PacketValue) (hw : PacketValue.wfList l) :
    PacketBuilder.array_tojson (PacketValue.arr l) =
      Except.ok (Value.arr (pvJsonList l)) := by
  rw [PacketBuilder.array_tojson, arrayElems_wf l hw]
  simp [bind, Except.bind, pure, Except.pure]
termination_by sizeOf l + 1
decreasing_by all_goals simp_wf <;> omega

/-- On well-formed element lists the array element loop succeeds with the
pointwise structural conversion. -/
theorem arrayElems_wf (l : List PacketValue) (hw : PacketValue.wfList l) :
    PacketBuilder.arrayElems l = Except.ok (pvJsonList l) := by
  match l with
  | [] =>
    rw [PacketBuilder.arrayElems]
    simp [pvJsonList, pure, Except.pure]
  | PacketValue.str v :: rest =>
    simp only [PacketValue.wfList] at hw
    rw [PacketBuilder.arrayElems, arrayElems_wf rest hw.2]
    simp [pvJsonList, pvJson, bind, Except.bind, pure, Except.pure]
  | PacketValue.obj o :: rest =>
    simp only [PacketValue.wfList, PacketValue.wf] at hw
    rw [PacketBuilder.arrayElems, object_tojson_wf o hw.1.1 hw.1.2,
      arrayElems_wf rest hw.2]
    simp [pvJsonList, pvJson, bind, Except.bind, pure, Except.pure]
  | PacketValue.arr a :: rest =>
    simp only [PacketValue.wfList, PacketValue.wf] at hw
    rw [PacketBuilder.arrayElems, array_tojson_wf a hw.1, arrayElems_wf rest hw.2]
    simp [pvJsonList, pvJson, bind, Except.bind, pure, Except.pure]
termination_by sizeOf l
decreasing_by all_goals simp_wf <;> omega

/-- On well-formed objects `object_tojson` succeeds with the structural
conversion. -/
theorem object_tojson_wf (m : List (String × PacketValue))
    (hn : (m.map Prod.fst).Nodup) (hw : PacketValue.wfObj m) :
    PacketBuilder.object_tojson m = Except.ok (Value.obj (pvJsonObj m)) := by
  rw [PacketBuilder.object_tojson,
    objectEntries_wf [] m hn hw (by simp)]
  simp
termination_by sizeOf m + 1
decreasing_by all_goals simp_wf <;> omega

/-- The entry loop of `object_tojson`: with pairwise-distinct keys that are
also fresh for the accumulator it appends the converted entries in order. -/
theorem objectEntries_wf (acc : List (String × Value))
    (m : List (String × PacketValue)) (hn : (m.map Prod.fst).Nodup)
    (hw : PacketValue.wfObj m)
    (hd : ∀ k ∈ m.map Prod.fst, k ∉ acc.map Prod.fst) :
    PacketBuilder.objectEntries acc m =
      Except.ok (Value.obj (acc ++ pvJsonObj m)) := by
  match m with
  | [] =>
    rw [PacketBuilder.objectEntries]
    simp [pvJsonObj, pure, Except.pure]
  | (k, PacketValue.str s) :: rest =>
    simp only [List.map_cons, List.nodup_cons] at hn
    simp only [PacketValue.wfObj] at hw
    have hknotacc : k ∉ acc.map Prod.fst := hd k (by simp)
    have hd' : ∀ k' ∈ rest.map Prod.fst,
        k' ∉ (acc ++ [(k, Value.str s)]).map Prod.fst := by
      intro k' hk'
      simp only [List.map_append, List.mem_append, List.map_cons,
        List.map_nil, List.mem_singleton, not_or]
      exact ⟨hd k' (by simp [hk']), fun hcon => hn.1 (hcon ▸ hk')⟩
    rw [PacketBuilder.objectEntries,
      insertKV_append_of_not_mem (Value.str s) hknotacc,
      objectEntries_wf (acc ++ [(k, Value.str s)]) rest hn.2 hw.2 hd']
    simp [pvJsonObj, pvJson]
  | (k, PacketValue.obj o) :: rest =>
    simp only [List.map_cons, List.nodup_cons] at hn
    simp only [PacketValue.wfObj, PacketValue.wf] at hw
    have hknotacc : k ∉ acc.map Prod.fst := hd k (by simp)
    have hd' : ∀ k' ∈ rest.map Prod.fst,
        k' ∉ (acc ++ [(k, Value.obj (pvJsonObj o))]).map Prod.fst := by
      intro k' hk'
      simp only [List.map_append, List.mem_append, List.map_cons,
        List.map_nil, List.mem_singleton, not_or]
      exact ⟨hd k' (by simp [hk']), fun hcon => hn.1 (hcon ▸ hk')⟩
    rw [PacketBuilder.objectEntries, object_tojson_wf o hw.1.1 hw.1.2]
    simp only
    rw [insertKV_append_of_not_mem (Value.obj (pvJsonObj o)) hknotacc,
      objectEntries_wf (acc ++ [(k, Value.obj (pvJsonObj o))]) rest hn.2 hw.2 hd']
    simp [pvJsonObj, pvJson]
  | (k, PacketValue.arr a) :: rest =>
    simp only [List.map_cons, List.nodup_cons] at hn
    simp only [PacketValue.wfObj, PacketValue.wf] at hw
    have hknotacc : k ∉ acc.map Prod.fst := hd k (by simp)
    have hd' : ∀ k' ∈ rest.map Prod.fst,
        k' ∉ (acc ++ [(k, Value.arr (pvJsonList a))]).map Prod.fst := by
      intro k' hk'
      simp only [List.map_append, List.mem_append, List.map_cons,
        List.map_nil, List.mem_singleton, not_or]
      exact ⟨hd k' (by simp [hk']), fun hcon => hn.1 (hcon ▸ hk')⟩
    rw [PacketBuilder.objectEntries, array_tojson_wf a hw.1]
    simp only [bind, Except.bind]
    rw [insertKV_append_of_not_mem (Value.arr (pvJsonList a)) hknotacc,
      objectEntries_wf (acc ++ [(k, Value.arr (pvJsonList a))]) rest hn.2 hw.2 hd']
    simp [pvJsonObj, pvJson]
termination_by sizeOf m
decreasing_by all_goals simp_wf <;> omega
end

/-- The entry loop of `to_json` behaves like the `object_tojson` loop on
well-formed input. -/
theorem topEntries_wf (acc : List (String × Value))
    (m : List (String × PacketValue)) (hn : (m.map Prod.fst).Nodup)
    (hw : PacketValue.wfObj m)
    (hd : ∀ k ∈ m.map Prod.fst, k ∉ acc.map Prod.fst) :
    PacketBuilder.topEntries acc m =
      Except.ok (Value.obj (acc ++ pvJsonObj m)) := by
  match m with
  | [] =>
    rw [PacketBuilder.topEntries]
    simp [pvJsonObj, pure, Except.pure]
  | (k, PacketValue.str s) :: rest =>
    simp only [List.map_cons, List.nodup_cons] at hn
    simp only [PacketValue.wfObj] at hw
    have hknotacc : k ∉ acc.map Prod.fst := hd k (by simp)
    have hd' : ∀ k' ∈ rest.map Prod.fst,
        k' ∉ (acc ++ [(k, Value.str s)]).map Prod.fst := by
      intro k' hk'
      simp only [List.map_append, List.mem_append, List.map_cons,
        List.map_nil, List.mem_singleton, not_or]
      exact ⟨hd k' (by simp [hk']), fun hcon => hn.1 (hcon ▸ hk')⟩
    rw [PacketBuilder.topEntries,
      insertKV_append_of_not_mem (Value.str s) hknotacc,
      topEntries_wf (acc ++ [(k, Value.str s)]) rest hn.2 hw.2 hd']
    simp [pvJsonObj, pvJson]
  | (k, PacketValue.obj o) :: rest =>
    simp only [List.map_cons, List.nodup_cons] at hn
    simp only [PacketValue.wfObj, PacketValue.wf] at hw
    have hknotacc : k ∉ acc.map Prod.fst := hd k (by simp)
    have hd' : ∀ k' ∈ rest.map Prod.fst,
        k' ∉ (acc ++ [(k, Value.obj (pvJsonObj o))]).map Prod.fst := by
      intro k' hk'
      simp only [List.map_append, List.mem_append, List.map_cons,
        List.map_nil, List.mem_singleton, not_or]
      exact ⟨hd k' (by simp [hk']), fun hcon => hn.1 (hcon ▸ hk')⟩
    rw [PacketBuilder.topEntries, object_tojson_wf o hw.1.1 hw.1.2]
    simp only [bind, Except.bind]
    rw [insertKV_append_of_not_mem (Value.obj (pvJsonObj o)) hknotacc,
      topEntries_wf (acc ++ [(k, Value.obj (pvJsonObj o))]) rest hn.2 hw.2 hd']
    simp [pvJsonObj, pvJson]
  | (k, PacketValue.arr a) :: rest =>
    simp only [List.map_cons, List.nodup_cons] at hn
    simp only [PacketValue.wfObj, PacketValue.wf] at hw
    have hknotacc : k ∉ acc.map Prod.fst := hd k (by simp)
    have hd' : ∀ k' ∈ rest.map Prod.fst,
        k' ∉ (acc ++ [(k, Value.arr (pvJsonList a))]).map Prod.fst := by
      intro k' hk'
      simp only [List.map_append, List.mem_append, List.map_cons,
        List.map_nil, List.mem_singleton, not_or]
      exact ⟨hd k' (by simp [hk']), fun hcon => hn.1 (hcon ▸ hk')⟩
    rw [PacketBuilder.topEntries, array_tojson_wf a hw.1]
    simp only [bind, Except.bind]
    rw [insertKV_append_of_not_mem (Value.arr (pvJsonList a)) hknotacc,
      topEntries_wf (acc ++ [(k, Value.arr (pvJsonList a))]) rest hn.2 hw.2 hd']
    simp [pvJsonObj, pvJson]
termination_by sizeOf m

/-- Lemma: `to_json` on a well-formed object root succeeds with the structural
conversion. -/
theorem to_json_wf (m : List (String × PacketValue))
    (hn : (m.map Prod.fst).Nodup) (hw : PacketValue.wfObj m) :
    PacketBuilder.to_json (PacketValue.obj m) =
      Except.ok (Value.obj (pvJsonObj m)) := by
  rw [PacketBuilder.to_json, topEntries_wf [] m hn hw (by simp)]
  simp

/-! ## Transaction-body and builder lemmas -/

/-- Lemma: `TransactionBody.build` updates only the `json` cache. -/
theorem TransactionBody.build_fst (t : TransactionBody) :
    (TransactionBody.build t).1 = { t with json := some (TransactionBody.build t).2 } := rfl

/-- The object emitted by `TransactionBody.build`: `$contract`, `$namespace`
and `$i` are the stored required values, and `$entry` / `$o` / `$r` mirror
the optional fields exactly. -/
theorem TransactionBody.build_lookups (t : TransactionBody) :
    ∃ bm, (TransactionBody.build t).2 = Value.obj bm ∧
      lookupKV bm "$contract" = some t.contract ∧
      lookupKV bm "$namespace" = some t.nspace ∧
      lookupKV bm "$i" = some t.input ∧
      lookupKV bm "$entry" = t.entry ∧
      lookupKV bm "$o" = t.output ∧
      lookupKV bm "$r" = t.readonly := by
  obtain ⟨e, c, n, i, o, r, j⟩ := t
  rcases e with _ | e <;> rcases o with _ | o <;> rcases r with _ | r <;>
    exact ⟨_, rfl, by simp [insertKV, lookupKV]⟩

/-- Lemma: `addExtras` succeeds whenever every key is one of the six packet-data
keys (the `unreachable!()` branch of `TransactionBody::add` is not hit). -/
theorem addExtras_isSome (l : List (String × Value)) (t : TransactionBody)
    (hk : ∀ p ∈ l, p.1 ∈ ["namespace", "contract", "entry", "input", "output",
      "readonly"]) :
    (TransactionBuilder.addExtras t l).isSome := by
  induction l generalizing t with
  | nil => simp [TransactionBuilder.addExtras]
  | cons p rest ih =>
    obtain ⟨k, v⟩ := p
    have hkmem := hk (k, v) (by simp)
    have hrest : ∀ p ∈ rest, p.1 ∈ ["namespace", "contract", "entry", "input",
        "output", "readonly"] := fun p hp => hk p (by simp [hp])
    simp only [List.mem_cons, List.mem_singleton, List.not_mem_nil,
      or_false] at hkmem
    rw [TransactionBuilder.addExtras]
    rcases hkmem with h | h | h | h | h | h <;> subst h <;>
      simp [checkedKeys, TransactionBody.add, ih _ hrest]

/-- What a successful `addExtras` run does to the body: the required fields
and the cache are untouched, and each optional field is overridden exactly
when the corresponding key occurs in the (duplicate-free) list. -/
theorem addExtras_some_spec (l : List (String × Value)) (t t' : TransactionBody)
    (h : TransactionBuilder.addExtras t l = some t')
    (hn : (l.map Prod.fst).Nodup) :
    t'.contract = t.contract ∧ t'.nspace = t.nspace ∧ t'.input = t.input ∧
    t'.json = t.json ∧
    t'.entry = ((lookupKV l "entry").or t.entry) ∧
    t'.output = ((lookupKV l "output").or t.output) ∧
    t'.readonly = ((lookupKV l "readonly").or t.readonly) := by
  induction l generalizing t with
  | nil =>
    rw [TransactionBuilder.addExtras] at h
    cases h
    simp [lookupKV]
  | cons p rest ih =>
    obtain ⟨k, v⟩ := p
    simp only [List.map_cons, List.nodup_cons] at hn
    have hlrest : lookupKV rest k = none :=
      lookupKV_eq_none_of_not_mem hn.1
    rw [TransactionBuilder.addExtras] at h
    by_cases hc : k ∈ checkedKeys
    · rw [if_pos hc] at h
      have := ih t h hn.2
      simp only [checkedKeys, List.mem_cons, List.mem_singleton,
        List.not_mem_nil, or_false] at hc
      rcases hc with h' | h' | h' <;> subst h' <;>
        simpa [lookupKV] using this
    · rw [if_neg hc] at h
      by_cases h1 : k = "entry"
      · subst h1
        simp only [TransactionBody.add, if_pos rfl] at h
        have := ih _ h hn.2
        simp only at this
        refine ⟨this.1, this.2.1, this.2.2.1, this.2.2.2.1, ?_, ?_, ?_⟩
        · rw [this.2.2.2.2.1, hlrest]
          simp [lookupKV]
        · rw [this.2.2.2.2.2.1]
          simp [lookupKV]
        · rw [this.2.2.2.2.2.2]
          simp [lookupKV]
      · by_cases h2 : k = "output"
        · subst h2
          simp only [TransactionBody.add, if_pos rfl, if_neg (by decide :
            ¬ ("output" : String) = "entry")] at h
          have := ih _ h hn.2
          simp only at this
          refine ⟨this.1, this.2.1, this.2.2.1, this.2.2.2.1, ?_, ?_, ?_⟩
          · rw [this.2.2.2.2.1]
            simp [lookupKV]
          · rw [this.2.2.2.2.2.1, hlrest]
            simp [lookupKV]
          · rw [this.2.2.2.2.2.2]
            simp [lookupKV]
        · by_cases h3 : k = "readonly"
          · subst h3
            simp only [TransactionBody.add, if_pos rfl,
              if_neg (by decide : ¬ ("readonly" : String) = "entry"),
              if_neg (by decide : ¬ ("readonly" : String) = "output")] at h
            have := ih _ h hn.2
            simp only at this
            refine ⟨this.1, this.2.1, this.2.2.1, this.2.2.2.1, ?_, ?_, ?_⟩
            · rw [this.2.2.2.2.1]
              simp [lookupKV]
            · rw [this.2.2.2.2.2.1]
              simp [lookupKV]
            · rw [this.2.2.2.2.2.2, hlrest]
              simp [lookupKV]
          · simp only [TransactionBody.add, if_neg h1, if_neg h2,
              if_neg h3] at h
            cases h

/-- What a successful signing loop does to the signature map: keys outside
the signee list are untouched, definedness is preserved, and every signee's
stream id is present afterwards. -/
theorem signLoop_ok_spec (l : List Signee) (sigs sigs' : List (String × String))
    (d : String) (u : Unit)
    (h : TransactionBuilder.signLoop sigs d l = (sigs', Except.ok u)) :
    (∀ k, k ∉ l.map Signee.streamid → lookupKV sigs' k = lookupKV sigs k) ∧
    (∀ k, (lookupKV sigs k).isSome → (lookupKV sigs' k).isSome) ∧
    (∀ sg ∈ l, (lookupKV sigs' sg.streamid).isSome) := by
  induction l generalizing sigs with
  | nil =>
    rw [TransactionBuilder.signLoop] at h
    cases h
    exact ⟨fun _ _ => rfl, fun _ hk => hk, by simp⟩
  | cons sg rest ih =>
    rw [TransactionBuilder.signLoop] at h
    rcases hsig : TransactionBuilder.sign_internal d sg.key with e | s
    · rw [hsig] at h
      cases h
    · rw [hsig] at h
      have := ih _ h
      refine ⟨?_, ?_, ?_⟩
      · intro k hk
        simp only [List.map_cons, List.mem_cons, not_or] at hk
        rw [this.1 k hk.2, lookupKV_insertKV_ne _ _ hk.1]
      · intro k hk
        exact this.2.1 k (lookupKV_insertKV_isSome _ _ _ _ hk)
      · intro sg' hsg'
        rcases List.mem_cons.1 hsg' with h' | h'
        · subst h'
          refine this.2.1 sg'.streamid ?_
          rw [lookupKV_insertKV_self]
          rfl
        · exact this.2.2 sg' h'

/-- If every signee's key signs successfully, the signing loop succeeds. -/
theorem signLoop_all_ok (l : List Signee) (sigs : List (String × String))
    (d : String)
    (h : ∀ sg ∈ l, ∃ s, TransactionBuilder.sign_internal d sg.key = Except.ok s) :
    ∃ sigs', TransactionBuilder.signLoop sigs d l = (sigs', Except.ok ()) := by
  induction l generalizing sigs with
  | nil => exact ⟨sigs, rfl⟩
  | cons sg rest ih =>
    obtain ⟨s, hs⟩ := h sg (by simp)
    have hrest : ∀ sg' ∈ rest, ∃ s,
        TransactionBuilder.sign_internal d sg'.key = Except.ok s :=
      fun sg' h' => h sg' (by simp [h'])
    obtain ⟨sigs', hloop⟩ := ih (insertKV sigs sg.streamid s) hrest
    refine ⟨sigs', ?_⟩
    rw [TransactionBuilder.signLoop, hs]
    exact hloop

/-- A failing signing loop fails with a key error (elliptic-curve code 7000
or RSA code 7001). -/
theorem signLoop_error_key (l : List Signee) (sigs sigs' : List (String × String))
    (d : String) (e : TxBuilderError)
    (h : TransactionBuilder.signLoop sigs d l = (sigs', Except.error e)) :
    e = TxBuilderError.KeyError 7000 ∨ e = TxBuilderError.KeyError 7001 := by
  induction l generalizing sigs with
  | nil =>
    rw [TransactionBuilder.signLoop] at h
    cases h
  | cons sg rest ih =>
    obtain ⟨sid, kk⟩ := sg
    rw [TransactionBuilder.signLoop] at h
    rcases kk with key | key
    · simp only [TransactionBuilder.sign_internal,
        TransactionBuilder.sign_rsa] at h
      rcases hk : key.signFn d with _ | s <;> simp only [hk] at h
      · cases h
        right
        rfl
      · exact ih _ h
    · simp only [TransactionBuilder.sign_internal,
        TransactionBuilder.sign_ec] at h
      rcases hk : key.signFn d with _ | s <;> simp only [hk] at h
      · cases h
        left
        rfl
      · exact ih _ h

/-- Lookups on the envelope assembled by `build`: `$tx` and `$sigs` hold the
inserted values, and `$territoriality` / `$selfsign` are present exactly as
in the builder's transaction-level data. -/
theorem env_lookups (bv sj : Value) (td : List (String × Value)) :
    let env1 := insertKV (insertKV [] "$tx" bv) "$sigs" sj
    let env2 := match lookupKV td "territoriality" with
      | some data => insertKV env1 "$territoriality" data
      | none => env1
    let env3 := match lookupKV td "selfsign" with
      | some data => insertKV env2 "$selfsign" data
      | none => env2
    lookupKV env3 "$tx" = some bv ∧ lookupKV env3 "$sigs" = some sj ∧
    lookupKV env3 "$territoriality" = lookupKV td "territoriality" ∧
    lookupKV env3 "$selfsign" = lookupKV td "selfsign" := by
  rcases ht : lookupKV td "territoriality" with _ | dt <;>
    rcases hs : lookupKV td "selfsign" with _ | ds <;>
      simp [insertKV, lookupKV]

/-- Destructuring a successful `build` run: the required lookups succeeded,
the extras loop succeeded, the signing loop succeeded, and the resulting
builder and output string are the assembled envelope. -/
theorem build_ok_spec (b : TransactionBuilder) (s : Signees)
    (b' : TransactionBuilder) (out : String)
    (h : b.build s = some (b', Except.ok out)) :
    ∃ contract nspace input tx1 sigs',
      lookupKV b.packet_data "contract" = some contract ∧
      lookupKV b.packet_data "namespace" = some nspace ∧
      lookupKV b.packet_data "input" = some input ∧
      TransactionBuilder.addExtras (TransactionBody.new contract nspace input)
        b.packet_data = some tx1 ∧
      TransactionBuilder.signLoop b.sigs
        (Value.serialize (TransactionBody.build tx1).2) s.get =
        (sigs', Except.ok ()) ∧
      b' = { b with
              packet := some (TransactionBody.build tx1).1,
              sigs := sigs',
              tx := some (Value.obj
                (let env1 := insertKV (insertKV [] "$tx"
                    (TransactionBody.build tx1).2) "$sigs" (sigsJson sigs')
                 let env2 := match lookupKV b.tx_data "territoriality" with
                   | some data => insertKV env1 "$territoriality" data
                   | none => env1
                 match lookupKV b.tx_data "selfsign" with
                   | some data => insertKV env2 "$selfsign" data
                   | none => env2)) } ∧
      out = Value.serialize (Value.obj
        (let env1 := insertKV (insertKV [] "$tx"
            (TransactionBody.build tx1).2) "$sigs" (sigsJson sigs')
         let env2 := match lookupKV b.tx_data "territoriality" with
           | some data => insertKV env1 "$territoriality" data
           | none => env1
         match lookupKV b.tx_data "selfsign" with
           | some data => insertKV env2 "$selfsign" data
           | none => env2)) := by
  rw [TransactionBuilder.build] at h
  rcases hc : lookupKV b.packet_data "contract" with _ | contract <;>
    simp only [hc] at h
  · simp at h
  rcases hn : lookupKV b.packet_data "namespace" with _ | nspace <;>
    simp only [hn] at h
  · simp at h
  rcases hi : lookupKV b.packet_data "input" with _ | input <;>
    simp only [hi] at h
  · simp at h
  rcases ha : TransactionBuilder.addExtras
      (TransactionBody.new contract nspace input) b.packet_data with _ | tx1 <;>
    simp only [ha] at h
  · simp at h
  rcases hl : TransactionBuilder.signLoop b.sigs
      (Value.serialize (TransactionBody.build tx1).2) s.get with ⟨sigs', res⟩
  simp only [hl] at h
  rcases res with e | u
  · simp at h
  simp only [Option.some.injEq, Prod.mk.injEq, Except.ok.injEq] at h
  refine ⟨contract, nspace, input, tx1, sigs', rfl, rfl, rfl, ha, ?_, ?_, ?_⟩
  · exact hl
  · exact h.1.symm
  · exact h.2.symm

/-! ## Claims -/

/-- C2: `build` fails when `contract`, `namespace` or `input` is absent from
the collected packet data; the error is field-specific (5006 contract-missing,
5007 namespace-missing, 5008 input-missing, pairwise distinct), and the
checks run in that order, so omitting one field with the other two present
yields its own error. The builder state is returned unchanged in each case. -/
theorem build_missing_required_fields :
    (∀ (b : TransactionBuilder) (s : Signees),
        lookupKV b.packet_data "contract" = none →
        b.build s = some (b, Except.error (TxBuilderError.TxBuildError 5006))) ∧
    (∀ (b : TransactionBuilder) (s : Signees) (c : Value),
        lookupKV b.packet_data "contract" = some c →
        lookupKV b.packet_data "namespace" = none →
        b.build s = some (b, Except.error (TxBuilderError.TxBuildError 5007))) ∧
    (∀ (b : TransactionBuilder) (s : Signees) (c n : Value),
        lookupKV b.packet_data "contract" = some c →
        lookupKV b.packet_data "namespace" = some n →
        lookupKV b.packet_data "input" = none →
        b.build s = some (b, Except.error (TxBuilderError.TxBuildError 5008))) ∧
    (TxBuilderError.TxBuildError 5006 ≠ TxBuilderError.TxBuildError 5007 ∧
      TxBuilderError.TxBuildError 5006 ≠ TxBuilderError.TxBuildError 5008 ∧
      TxBuilderError.TxBuildError 5007 ≠ TxBuilderError.TxBuildError 5008) := by
  refine ⟨?_, ?_, ?_, by decide, by decide, by decide⟩
  · intro b s hc
    rw [TransactionBuilder.build, hc]
  · intro b s c hc hn
    rw [TransactionBuilder.build, hc, hn]
  · intro b s c n hc hn hi
    rw [TransactionBuilder.build, hc, hn, hi]

/-- Witness for C2 at a blank builder: the contract lookup is absent and
`build` fails with error 5006 leaving the builder unchanged. -/
theorem build_missing_required_fields_witness :
    lookupKV TransactionBuilder.new_blank.packet_data "contract" = none ∧
    TransactionBuilder.new_blank.build Signees.new =
      some (TransactionBuilder.new_blank,
        Except.error (TxBuilderError.TxBuildError 5006)) :=
  ⟨rfl, build_missing_required_fields.1 TransactionBuilder.new_blank
    Signees.new rfl⟩

/-- C9: if every key of the packet-data map is one of the six keys the
public setters write (`namespace`, `contract`, `entry`, `input`, `output`,
`readonly`), then `build` never hits the `unreachable!()` branch of
`TransactionBody::add` (the result is never the `none` that embeds the
panic). -/
theorem build_never_panics (b : TransactionBuilder) (s : Signees)
    (hk : ∀ p ∈ b.packet_data, p.1 ∈ ["namespace", "contract", "entry",
      "input", "output", "readonly"]) :
    (b.build s).isSome := by
  rw [TransactionBuilder.build]
  rcases hc : lookupKV b.packet_data "contract" with _ | c
  · simp
  rcases hn : lookupKV b.packet_data "namespace" with _ | n
  · simp
  rcases hi : lookupKV b.packet_data "input" with _ | i
  · simp
  have hsome := addExtras_isSome b.packet_data (TransactionBody.new c n i) hk
  rcases ha : TransactionBuilder.addExtras (TransactionBody.new c n i)
      b.packet_data with _ | t1
  · rw [ha] at hsome
    simp at hsome
  simp only [ha]
  rcases hl : TransactionBuilder.signLoop b.sigs
      (Value.serialize (TransactionBody.build t1).2) s.get with ⟨sigs2, res⟩
  rcases res with e | u <;> simp [hl]

/-- Witness for C9 at a builder holding all six setter keys. -/
theorem build_never_panics_witness :
    (∀ p ∈ ([("namespace", Value.str "n"), ("contract", Value.str "c"),
        ("entry", Value.str "e"), ("input", Value.obj []),
        ("output", Value.obj []), ("readonly", Value.obj [])] :
          List (String × Value)),
      p.1 ∈ ["namespace", "contract", "entry", "input", "output",
        "readonly"]) ∧
    (TransactionBuilder.build
      { packet_data := [("namespace", Value.str "n"), ("contract", Value.str "c"),
          ("entry", Value.str "e"), ("input", Value.obj []),
          ("output", Value.obj []), ("readonly", Value.obj [])],
        tx_data := [], packet := none, tx := none, sigs := [] }
      Signees.new).isSome :=
  ⟨by decide, build_never_panics _ Signees.new (by decide)⟩

/-- C4 counterexample: building a `PacketValue::String` root via
`PacketBuilder::new` does NOT fail — `to_json` silently falls through its
`if let` and the build succeeds with the empty JSON object. -/
theorem packet_build_nonobject_counterexample :
    (PacketBuilder.new (PacketValue.str "s")).build =
      Except.ok { data := some (PacketValue.str "s"),
                  json := some (Value.obj []), is_json := true,
                  built := some (Value.serialize (Value.obj [])) } ∧
    ((PacketBuilder.new (PacketValue.str "s")).build).isOk = true :=
  ⟨rfl, rfl⟩

/-- C4 amended: building a String- or Array-rooted `PacketValue` via
`PacketBuilder::new` followed by `build` succeeds (rather than failing with
a Build error): the non-object root falls through `to_json`'s `if let`, so
the result is a `PacketData` whose JSON form is the empty object and whose
serialized snapshot is the empty object's serialization — the stored data
is silently dropped. `BuildError 1000` is reserved for the (unreachable via
the public constructors) case of no stored value at all. -/
theorem packet_build_nonobject_succeeds_empty :
    (∀ s : String, (PacketBuilder.new (PacketValue.str s)).build =
      Except.ok { data := some (PacketValue.str s),
                  json := some (Value.obj []), is_json := true,
                  built := some (Value.serialize (Value.obj [])) }) ∧
    (∀ l : List PacketValue, (PacketBuilder.new (PacketValue.arr l)).build =
      Except.ok { data := some (PacketValue.arr l),
                  json := some (Value.obj []), is_json := true,
                  built := some (Value.serialize (Value.obj [])) }) :=
  ⟨fun _ => rfl, fun _ => rfl⟩

/-- C7 counterexample: a `PacketData` created via `PacketBuilder::new_json`
on which `build` has never been called already answers `get()` successfully
(`add_json` populates the JSON form at construction time), contradicting
the claim that `get()` fails whenever `build` has not run. -/
theorem packet_get_before_build_counterexample :
    (PacketBuilder.new_json (Value.str "x")).data.get =
      Except.ok (Value.str "x") ∧
    ((PacketBuilder.new_json (Value.str "x")).data.get).isOk = true :=
  ⟨rfl, rfl⟩

/-- C7 amended: `get()` succeeds exactly when the JSON form is populated —
which `build()` does, but which `new_json` already does at construction —
and `get_string()` succeeds exactly when the serialized snapshot is
populated (only `build()` does that). Hence before any `build`: a
value-sourced `PacketData` (via `new`) fails both `get` and `get_string`,
while a JSON-sourced one (via `new_json`) fails only `get_string` and
already answers `get` with the stored JSON. -/
theorem packet_get_iff_populated :
    (∀ d : PacketData, (d.get).isOk = true ↔ d.json ≠ none) ∧
    (∀ d : PacketData, (d.get_string).isOk = true ↔ d.built ≠ none) ∧
    (∀ v : PacketValue, ((PacketBuilder.new v).data.get).isOk = false ∧
      ((PacketBuilder.new v).data.get_string).isOk = false) ∧
    (∀ j : Value, (PacketBuilder.new_json j).data.get = Except.ok j ∧
      ((PacketBuilder.new_json j).data.get_string).isOk = false) := by
  refine ⟨?_, ?_, ?_, ?_⟩
  · intro d
    rcases h : d.json with _ | j <;> simp [PacketData.get, h, Except.isOk, Except.toBool]
  · intro d
    rcases h : d.built with _ | s <;>
      simp [PacketData.get_string, h, Except.isOk, Except.toBool]
  · intro v
    rcases v with s | l | m <;> exact ⟨rfl, rfl⟩
  · intro j
    exact ⟨rfl, rfl⟩

/-- C3: for every `PacketValue` tree with an object root (and, as Rust's
`HashMap` guarantees by construction, duplicate-free keys throughout),
`PacketBuilder::new` followed by `build` succeeds, and the produced JSON
value is structurally isomorphic to the input: strings map to the same
strings, arrays map elementwise in order, objects map entrywise with the
same keys. -/
theorem packet_build_iso (m : List (String × PacketValue))
    (hwf : PacketValue.wf (PacketValue.obj m)) :
    ∃ pd, (PacketBuilder.new (PacketValue.obj m)).build = Except.ok pd ∧
      pd.json = some (Value.obj (pvJsonObj m)) ∧
      IsoVal (PacketValue.obj m) (Value.obj (pvJsonObj m)) := by
  simp only [PacketValue.wf] at hwf
  refine ⟨(PacketData.new.add_map m).set_built (Value.obj (pvJsonObj m)),
    ?_, rfl, ?_⟩
  · show (PacketBuilder.new (PacketValue.obj m)).build = _
    rw [show PacketBuilder.new (PacketValue.obj m) =
      { data := PacketData.new.add_map m } from rfl]
    rw [PacketBuilder.build]
    simp only [PacketData.new, PacketData.add_map, PacketData.get_map,
      Bool.false_eq_true, if_neg (by simp : ¬ (false = true))]
    rw [to_json_wf m hwf.1 hwf.2]
    simp
  · simp only [IsoVal]
    exact pvJsonObj_iso m

/-- Witness for C3 at a small concrete tree with a string, an array and a
nested object. -/
theorem packet_build_iso_witness :
    PacketValue.wf (PacketValue.obj [("a", PacketValue.str "b"),
      ("c", PacketValue.arr [PacketValue.str "d"]),
      ("e", PacketValue.obj [("f", PacketValue.str "g")])]) ∧
    ∃ pd, (PacketBuilder.new (PacketValue.obj [("a", PacketValue.str "b"),
        ("c", PacketValue.arr [PacketValue.str "d"]),
        ("e", PacketValue.obj [("f", PacketValue.str "g")])])).build =
        Except.ok pd ∧
      pd.json = some (Value.obj (pvJsonObj [("a", PacketValue.str "b"),
        ("c", PacketValue.arr [PacketValue.str "d"]),
        ("e", PacketValue.obj [("f", PacketValue.str "g")])])) ∧
      IsoVal (PacketValue.obj [("a", PacketValue.str "b"),
        ("c", PacketValue.arr [PacketValue.str "d"]),
        ("e", PacketValue.obj [("f", PacketValue.str "g")])])
        (Value.obj (pvJsonObj [("a", PacketValue.str "b"),
          ("c", PacketValue.arr [PacketValue.str "d"]),
          ("e", PacketValue.obj [("f", PacketValue.str "g")])])) := by
  have hwf : PacketValue.wf (PacketValue.obj [("a", PacketValue.str "b"),
      ("c", PacketValue.arr [PacketValue.str "d"]),
      ("e", PacketValue.obj [("f", PacketValue.str "g")])]) := by
    simp [PacketValue.wf, PacketValue.wfObj, PacketValue.wfList]
  exact ⟨hwf, packet_build_iso _ hwf⟩

/-- C1: whenever `build(signees)` succeeds, the cached/returned envelope
holds `$tx` with `$contract`, `$namespace` and `$i` equal to the stored
contract, namespace and input; `$entry`, `$o`, `$r` are present in `$tx`
exactly when `entry` / `output` / `readonly` were set before the call (with
those very values); `$territoriality` and `$selfsign` are present exactly
when set; and `$sigs` is always present as the signature-map object.
Moreover `build` does not require a signee: with the three required fields
present (and setter-only keys), an empty registry builds successfully and
`$sigs` is the empty object when no signatures had accumulated. -/
theorem build_envelope_shape :
    (∀ (b : TransactionBuilder) (s : Signees) (b' : TransactionBuilder)
        (out : String),
      (b.packet_data.map Prod.fst).Nodup →
      b.build s = some (b', Except.ok out) →
      ∃ env, b'.tx = some (Value.obj env) ∧
        out = Value.serialize (Value.obj env) ∧
        (∃ bm, lookupKV env "$tx" = some (Value.obj bm) ∧
          lookupKV bm "$contract" = lookupKV b.packet_data "contract" ∧
          lookupKV bm "$namespace" = lookupKV b.packet_data "namespace" ∧
          lookupKV bm "$i" = lookupKV b.packet_data "input" ∧
          lookupKV bm "$entry" = lookupKV b.packet_data "entry" ∧
          lookupKV bm "$o" = lookupKV b.packet_data "output" ∧
          lookupKV bm "$r" = lookupKV b.packet_data "readonly") ∧
        lookupKV env "$territoriality" = lookupKV b.tx_data "territoriality" ∧
        lookupKV env "$selfsign" = lookupKV b.tx_data "selfsign" ∧
        lookupKV env "$sigs" = some (sigsJson b'.sigs)) ∧
    (∀ b : TransactionBuilder,
      (∀ p ∈ b.packet_data, p.1 ∈ ["namespace", "contract", "entry",
        "input", "output", "readonly"]) →
      (lookupKV b.packet_data "contract").isSome →
      (lookupKV b.packet_data "namespace").isSome →
      (lookupKV b.packet_data "input").isSome →
      b.sigs = [] →
      ∃ b' out env, b.build Signees.new = some (b', Except.ok out) ∧
        b'.tx = some (Value.obj env) ∧
        lookupKV env "$sigs" = some (Value.obj [])) := by
  constructor
  · intro b s b' out hnd h
    obtain ⟨c, n, i, tx1, sigs', hc, hn, hi, ha, hl, hb', hout⟩ :=
      build_ok_spec b s b' out h
    obtain ⟨hfc, hfn, hfi, hfj, hfe, hfo, hfr⟩ :=
      addExtras_some_spec b.packet_data _ tx1 ha hnd
    obtain ⟨bm, hbm, lc, ln, li, le, lo, lr⟩ := TransactionBody.build_lookups tx1
    have henv := env_lookups (TransactionBody.build tx1).2 (sigsJson sigs')
      b.tx_data
    subst hb'
    refine ⟨_, rfl, hout, ⟨bm, ?_, ?_, ?_, ?_, ?_, ?_, ?_⟩, henv.2.2.1,
      henv.2.2.2, henv.2.1⟩
    · rw [← hbm]
      exact henv.1
    · rw [lc, hfc, hc]
      rfl
    · rw [ln, hfn, hn]
      rfl
    · rw [li, hfi, hi]
      rfl
    · rw [le, hfe]
      simp [TransactionBody.new]
    · rw [lo, hfo]
      simp [TransactionBody.new]
    · rw [lr, hfr]
      simp [TransactionBody.new]
  · intro b hk hc hn hi hs0
    obtain ⟨c, hc'⟩ := Option.isSome_iff_exists.mp hc
    obtain ⟨n, hn'⟩ := Option.isSome_iff_exists.mp hn
    obtain ⟨i, hi'⟩ := Option.isSome_iff_exists.mp hi
    have hsome := addExtras_isSome b.packet_data (TransactionBody.new c n i) hk
    obtain ⟨tx1, ha⟩ := Option.isSome_iff_exists.mp hsome
    rw [TransactionBuilder.build]
    simp only [hc', hn', hi', ha]
    rw [show Signees.new.get = [] from rfl]
    rw [TransactionBuilder.signLoop]
    refine ⟨_, _, _, rfl, rfl, ?_⟩
    have henv := env_lookups (TransactionBody.build tx1).2 (sigsJson b.sigs)
      b.tx_data
    rw [henv.2.1, hs0]
    rfl

/-- Witness for C1 (second part) at a builder with the three required
fields, an empty signature map and an empty signee registry. -/
theorem build_envelope_shape_witness :
    ((∀ p ∈ ([("namespace", Value.str "n"), ("contract", Value.str "c"),
        ("input", Value.obj [])] : List (String × Value)),
      p.1 ∈ ["namespace", "contract", "entry", "input", "output",
        "readonly"])) ∧
    ∃ b' out env,
      (TransactionBuilder.build
        { packet_data := [("namespace", Value.str "n"),
            ("contract", Value.str "c"), ("input", Value.obj [])],
          tx_data := [], packet := none, tx := none, sigs := [] }
        Signees.new) = some (b', Except.ok out) ∧
      b'.tx = some (Value.obj env) ∧
      lookupKV env "$sigs" = some (Value.obj []) :=
  ⟨by decide, build_envelope_shape.2
    { packet_data := [("namespace", Value.str "n"),
        ("contract", Value.str "c"), ("input", Value.obj [])],
      tx_data := [], packet := none, tx := none, sigs := [] }
    (by decide) (by decide) (by decide) (by decide) rfl⟩

/-- C10: the signature map grows monotonically across builds: a successful
(re-)`build` merges new signatures into the existing map without clearing
it, so every previously accumulated stream id still has an entry (its value
unchanged unless the new registry reuses the id), and the fresh envelope's
`$sigs` is exactly the merged map — even though earlier entries were
computed over an earlier body's bytes. -/
theorem build_sigs_monotone (b : TransactionBuilder) (s : Signees)
    (b' : TransactionBuilder) (out : String)
    (h : b.build s = some (b', Except.ok out)) :
    ∃ env, b'.tx = some (Value.obj env) ∧
      lookupKV env "$sigs" = some (sigsJson b'.sigs) ∧
      (∀ k, (lookupKV b.sigs k).isSome → (lookupKV b'.sigs k).isSome) ∧
      (∀ k v, lookupKV b.sigs k = some v →
        k ∉ s.get.map Signee.streamid → lookupKV b'.sigs k = some v) := by
  obtain ⟨c, n, i, tx1, sigs', hc, hn, hi, ha, hl, hb', hout⟩ :=
    build_ok_spec b s b' out h
  have hspec := signLoop_ok_spec s.get b.sigs sigs' _ _ hl
  have henv := env_lookups (TransactionBody.build tx1).2 (sigsJson sigs')
    b.tx_data
  subst hb'
  refine ⟨_, rfl, henv.2.1, fun k hk => hspec.2.1 k hk, ?_⟩
  intro k v hkv hnot
  rw [hspec.1 k hnot]
  exact hkv

/-- A signee whose signer always succeeds (concrete witness input). -/
def okEcKey : Key :=
  Key.Ec { name := "s1", signFn := fun _ => some "SIG", publicPem := some "PEM" }

/-- Witness builder for C10: required fields present and one signature
already accumulated under stream id `"old"`. -/
def c10Builder : TransactionBuilder :=
  { packet_data := [("namespace", Value.str "n"), ("contract", Value.str "c"),
      ("input", Value.obj [])],
    tx_data := [], packet := none, tx := none, sigs := [("old", "oldsig")] }

/-- Witness registry for C10: one signee with the fresh stream id `"s1"`. -/
def c10Signees : Signees := { keys := [{ streamid := "s1", key := okEcKey }] }

/-- The `$tx` value the witness build produces. -/
def c10BodyVal : Value :=
  Value.obj [("$contract", Value.str "c"), ("$namespace", Value.str "n"),
    ("$i", Value.obj [])]

/-- The envelope object the witness build produces. -/
def c10Env : List (String × Value) :=
  [("$tx", c10BodyVal),
    ("$sigs", Value.obj [("old", Value.str "oldsig"), ("s1", Value.str "SIG")])]

/-- The builder state after the witness build. -/
def c10After : TransactionBuilder :=
  { packet_data := c10Builder.packet_data, tx_data := [],
    packet := some { entry := none, contract := Value.str "c",
                     nspace := Value.str "n", input := Value.obj [],
                     output := none, readonly := none,
                     json := some c10BodyVal },
    tx := some (Value.obj c10Env),
    sigs := [("old", "oldsig"), ("s1", "SIG")] }

/-- Witness for C10: a concrete successful build whose prior signature for
`"old"` survives next to the new `"s1"` signature. -/
theorem build_sigs_monotone_witness :
    c10Builder.build c10Signees =
      some (c10After, Except.ok (Value.serialize (Value.obj c10Env))) ∧
    ∃ env, c10After.tx = some (Value.obj env) ∧
      lookupKV env "$sigs" = some (sigsJson c10After.sigs) ∧
      (∀ k, (lookupKV c10Builder.sigs k).isSome →
        (lookupKV c10After.sigs k).isSome) ∧
      (∀ k v, lookupKV c10Builder.sigs k = some v →
        k ∉ c10Signees.get.map Signee.streamid →
        lookupKV c10After.sigs k = some v) :=
  ⟨by rfl, build_sigs_monotone c10Builder c10Signees c10After _ (by rfl)⟩

/-- A signee whose signer always fails (concrete counterexample input). -/
def failEcKey : Key :=
  Key.Ec { name := "s1", signFn := fun _ => none, publicPem := some "PEM" }

/-- Counterexample builder for C6: required fields present, nothing cached. -/
def c6Builder : TransactionBuilder :=
  { packet_data := [("namespace", Value.str "n"), ("contract", Value.str "c"),
      ("input", Value.obj [])],
    tx_data := [], packet := none, tx := none, sigs := [] }

/-- Counterexample registry for C6: one signee whose signature fails. -/
def c6Signees : Signees := { keys := [{ streamid := "s1", key := failEcKey }] }

/-- The body `build` caches before the failing signature attempt. -/
def c6Body : TransactionBody :=
  { entry := none, contract := Value.str "c", nspace := Value.str "n",
    input := Value.obj [], output := none, readonly := none,
    json := some (Value.obj [("$contract", Value.str "c"),
      ("$namespace", Value.str "n"), ("$i", Value.obj [])]) }

/-- The builder state after the failing build of C6. -/
def c6After : TransactionBuilder := { c6Builder with packet := some c6Body }

/-- C6 counterexample: a `build` that fails during the signature attempt
does NOT leave the cached state untouched — the body cache was replaced
(from `none` to the newly assembled body) before the `?` early return. -/
theorem build_failure_state_counterexample :
    c6Builder.build c6Signees =
      some (c6After, Except.error (TxBuilderError.KeyError 7000)) ∧
    c6After.packet ≠ c6Builder.packet := by
  refine ⟨by rfl, ?_⟩
  simp [c6After, c6Builder]

/-- C6 amended: a failed `build` never surfaces a partial envelope — only
an error is returned and the cached envelope `tx` (as well as the collected
field maps) is unchanged; when the failure is one of the required-field
errors (a `TxBuildError`), the entire builder state is unchanged. (A
signature failure, by contrast, has already replaced the cached body and
retained the signatures inserted before the failure.) -/
theorem build_failure_state (b : TransactionBuilder) (s : Signees)
    (b' : TransactionBuilder) (e : TxBuilderError)
    (h : b.build s = some (b', Except.error e)) :
    b'.tx = b.tx ∧ b'.packet_data = b.packet_data ∧ b'.tx_data = b.tx_data ∧
    (∀ c, e = TxBuilderError.TxBuildError c → b' = b) := by
  rw [TransactionBuilder.build] at h
  rcases hc : lookupKV b.packet_data "contract" with _ | c <;>
    simp only [hc] at h
  · simp only [Option.some.injEq, Prod.mk.injEq, Except.error.injEq] at h
    obtain ⟨h1, h2⟩ := h
    subst h1
    exact ⟨rfl, rfl, rfl, fun _ _ => rfl⟩
  rcases hn : lookupKV b.packet_data "namespace" with _ | n <;>
    simp only [hn] at h
  · simp only [Option.some.injEq, Prod.mk.injEq, Except.error.injEq] at h
    obtain ⟨h1, h2⟩ := h
    subst h1
    exact ⟨rfl, rfl, rfl, fun _ _ => rfl⟩
  rcases hi : lookupKV b.packet_data "input" with _ | i <;>
    simp only [hi] at h
  · simp only [Option.some.injEq, Prod.mk.injEq, Except.error.injEq] at h
    obtain ⟨h1, h2⟩ := h
    subst h1
    exact ⟨rfl, rfl, rfl, fun _ _ => rfl⟩
  rcases ha : TransactionBuilder.addExtras (TransactionBody.new c n i)
      b.packet_data with _ | tx1 <;> simp only [ha] at h
  · cases h
  rcases hl : TransactionBuilder.signLoop b.sigs
      (Value.serialize (TransactionBody.build tx1).2) s.get with ⟨sigs2, res⟩
  simp only [hl] at h
  rcases res with e' | u
  · simp only [Option.some.injEq, Prod.mk.injEq, Except.error.injEq] at h
    obtain ⟨h1, h2⟩ := h
    subst h2
    refine ⟨by rw [← h1], by rw [← h1], by rw [← h1], ?_⟩
    intro c' hc'
    rcases signLoop_error_key s.get b.sigs sigs2 _ _ hl with h7 | h7 <;>
      rw [h7] at hc' <;> cases hc'
  · simp at h

/-- Witness for the amended C6 at the concrete failing build: the envelope
and collected maps are unchanged, and the error is not a required-field
error. -/
theorem build_failure_state_witness :
    c6Builder.build c6Signees =
      some (c6After, Except.error (TxBuilderError.KeyError 7000)) ∧
    (c6After.tx = c6Builder.tx ∧ c6After.packet_data = c6Builder.packet_data ∧
      c6After.tx_data = c6Builder.tx_data ∧
      (∀ c, TxBuilderError.KeyError 7000 = TxBuilderError.TxBuildError c →
        c6After = c6Builder)) :=
  ⟨by rfl, build_failure_state c6Builder c6Signees c6After _ (by rfl)⟩

/-- Unfolding a successful `sign` run: with a cached built body, a cached
envelope and a successful signing loop, `sign` merges the new signatures
and replaces only the `$sigs` field of the envelope. -/
theorem sign_ok_spec (b : TransactionBuilder) (s2 : Signees)
    (body : TransactionBody) (bj : Value) (em : List (String × Value))
    (sigs'' : List (String × String))
    (hp : b.packet = some body) (hj : body.json = some bj)
    (ht : b.tx = some (Value.obj em))
    (hloop : TransactionBuilder.signLoop b.sigs (Value.serialize bj) s2.get =
      (sigs'', Except.ok ())) :
    b.sign s2 = ({ b with
                     sigs := sigs'',
                     tx := some (Value.obj (insertKV em "$sigs"
                       (sigsJson sigs''))) },
      Except.ok ()) := by
  rw [TransactionBuilder.sign, hp]
  simp only [TransactionBody.get, hj, hloop, ht]

/-- C5: after a successful `build`, calling `sign` with a registry whose
stream ids are disjoint from the existing signature-map keys (and whose
keys all sign successfully) succeeds, adds a `$sigs` entry for every
signee, preserves every previously present `$sigs` entry, and leaves the
envelope's `$tx`, `$territoriality` and `$selfsign` unchanged; and on any
builder on which no build has occurred (no cached body), `sign` fails with
the no-packet-data error 5004, leaving the builder unchanged. -/
theorem sign_frame_effect :
    (∀ (b : TransactionBuilder) (s : Signees) (b' : TransactionBuilder)
        (out : String) (s2 : Signees),
      b.build s = some (b', Except.ok out) →
      (∀ sg ∈ s2.get, ∀ d, ∃ sig,
        TransactionBuilder.sign_internal d sg.key = Except.ok sig) →
      (∀ sg ∈ s2.get, lookupKV b'.sigs sg.streamid = none) →
      (b'.sign s2).2 = Except.ok () ∧
      ∃ env env', b'.tx = some (Value.obj env) ∧
        (b'.sign s2).1.tx = some (Value.obj env') ∧
        lookupKV env' "$tx" = lookupKV env "$tx" ∧
        lookupKV env' "$territoriality" = lookupKV env "$territoriality" ∧
        lookupKV env' "$selfsign" = lookupKV env "$selfsign" ∧
        ∃ sm, lookupKV env' "$sigs" = some (Value.obj sm) ∧
          (∀ k v, lookupKV b'.sigs k = some v →
            lookupKV sm k = some (Value.str v)) ∧
          (∀ sg ∈ s2.get, (lookupKV sm sg.streamid).isSome)) ∧
    (∀ (b : TransactionBuilder) (s2 : Signees), b.packet = none →
      b.sign s2 = (b, Except.error (TxBuilderError.TxBuildError 5004))) := by
  constructor
  · intro b s b' out s2 h hok hdisj
    obtain ⟨c, n, i, tx1, sigs', hc, hn, hi, ha, hl, hb', hout⟩ :=
      build_ok_spec b s b' out h
    obtain ⟨sigs'', hloop⟩ := signLoop_all_ok s2.get sigs'
      (Value.serialize (TransactionBody.build tx1).2)
      (fun sg hsg => hok sg hsg _)
    have hspec := signLoop_ok_spec s2.get sigs' sigs'' _ _ hloop
    have hsign := sign_ok_spec b' s2 (TransactionBody.build tx1).1
      (TransactionBody.build tx1).2 _ sigs''
      (by rw [hb']) (by rw [TransactionBody.build_fst]) (by rw [hb'])
      (by rw [hb']; exact hloop)
    rw [hsign]
    subst hb'
    have hdisj' : ∀ sg ∈ s2.get, lookupKV sigs' sg.streamid = none :=
      fun sg hsg => hdisj sg hsg
    refine ⟨rfl, _, _, rfl, rfl, ?_, ?_, ?_,
      sigs''.map (fun p => (p.1, Value.str p.2)), ?_, ?_, ?_⟩
    · exact lookupKV_insertKV_ne _ _ (by decide)
    · exact lookupKV_insertKV_ne _ _ (by decide)
    · exact lookupKV_insertKV_ne _ _ (by decide)
    · exact lookupKV_insertKV_self _ _ _
    · intro k v hkv
      have hkv' : lookupKV sigs' k = some v := hkv
      have hnot : k ∉ s2.get.map Signee.streamid := by
        intro hmem
        obtain ⟨sg, hsg, rfl⟩ := List.mem_map.mp hmem
        rw [hdisj' sg hsg] at hkv'
        cases hkv'
      show lookupKV (sigs''.map (fun p => (p.1, Value.str p.2))) k =
        some (Value.str v)
      rw [lookupKV_map_value, hspec.1 k hnot, hkv']
      rfl
    · intro sg hsg
      have := hspec.2.2 sg hsg
      show (lookupKV (sigs''.map (fun p => (p.1, Value.str p.2)))
        sg.streamid).isSome
      rw [lookupKV_map_value]
      obtain ⟨x, hx⟩ := Option.isSome_iff_exists.mp this
      rw [hx]
      rfl
  · intro b s2 hp
    rw [TransactionBuilder.sign, hp]

/-- Witness for C5 (second part): a blank builder has no cached body and
`sign` fails with error 5004 leaving it unchanged. -/
theorem sign_frame_effect_witness :
    TransactionBuilder.new_blank.packet = none ∧
    TransactionBuilder.new_blank.sign Signees.new =
      (TransactionBuilder.new_blank,
        Except.error (TxBuilderError.TxBuildError 5004)) :=
  ⟨rfl, sign_frame_effect.2 TransactionBuilder.new_blank Signees.new rfl⟩

/-- The key's own name (used as the self-sign stream id). -/
def Key.name : Key → String
  | Key.Rsa k => k.name
  | Key.Ec k => k.name

/-- The canonical key-type label used in the onboarding input. -/
def Key.kindLabel : Key → String
  | Key.Rsa _ => "rsa"
  | Key.Ec _ => "secp256k1"

/-- C8: for every key whose PEM extraction and signing succeed,
`onboard_tx` returns the serialization of an envelope with
`$tx.$contract = "onboard"`, `$tx.$namespace = "default"`,
`$selfsign = "true"`, `$tx.$i` holding exactly one top-level key — the
key's name — bound to `{ "type": <kind label>, "publicKey": <pem> }` with
`"secp256k1"` for elliptic-curve keys and `"rsa"` for RSA keys, and
`$sigs` holding exactly one entry keyed by that same name. -/
theorem onboard_tx_shape (k : Key) (pem : String)
    (hpem : TransactionBuilder.get_pem k = Except.ok pem)
    (hsig : ∀ d, ∃ sig, TransactionBuilder.sign_internal d k = Except.ok sig) :
    ∃ sig env txm,
      TransactionBuilder.onboard_tx k =
        some (Except.ok (Value.serialize (Value.obj env))) ∧
      lookupKV env "$tx" = some (Value.obj txm) ∧
      lookupKV txm "$contract" = some (Value.str "onboard") ∧
      lookupKV txm "$namespace" = some (Value.str "default") ∧
      lookupKV env "$selfsign" = some (Value.str "true") ∧
      lookupKV txm "$i" = some (Value.obj [(Key.name k,
        Value.obj [("type", Value.str (Key.kindLabel k)),
          ("publicKey", Value.str pem)])]) ∧
      lookupKV env "$sigs" = some (Value.obj [(Key.name k, Value.str sig)]) := by
  rcases k with key | key
  · simp only [TransactionBuilder.get_pem] at hpem
    rcases hpp : key.publicPem with _ | p <;> rw [hpp] at hpem
    · cases hpem
    injection hpem with hp
    subst hp
    obtain ⟨sig, hs⟩ := hsig (Value.serialize (Value.obj
      [("$contract", Value.str "onboard"), ("$namespace", Value.str "default"),
       ("$i", Value.obj [(key.name, Value.obj [("type", Value.str "rsa"),
         ("publicKey", Value.str p)])])]))
    refine ⟨sig,
      [("$tx", Value.obj [("$contract", Value.str "onboard"),
          ("$namespace", Value.str "default"),
          ("$i", Value.obj [(key.name, Value.obj [("type", Value.str "rsa"),
            ("publicKey", Value.str p)])])]),
        ("$sigs", Value.obj [(key.name, Value.str sig)]),
        ("$selfsign", Value.str "true")],
      [("$contract", Value.str "onboard"), ("$namespace", Value.str "default"),
        ("$i", Value.obj [(key.name, Value.obj [("type", Value.str "rsa"),
          ("publicKey", Value.str p)])])],
      ?_, by simp [lookupKV], by simp [lookupKV], by simp [lookupKV],
      by simp [lookupKV], by simp [lookupKV, Key.name, Key.kindLabel],
      by simp [lookupKV, Key.name]⟩
    rw [TransactionBuilder.onboard_tx]
    simp [TransactionBuilder.get_pem, hpp, PacketBuilder.new, PacketBuilder.build,
      PacketData.new, PacketData.add_map, PacketData.get_map, PacketData.set_built,
      PacketBuilder.to_json, PacketBuilder.topEntries, PacketBuilder.object_tojson,
      PacketBuilder.objectEntries, insertKV, TransactionBuilder.new,
      TransactionBuilder.selfsign, TransactionBuilder.input, PacketData.get,
      Signees.new, Signees.add_selfsign, TransactionBuilder.build, lookupKV,
      TransactionBuilder.addExtras, checkedKeys, TransactionBody.new,
      TransactionBody.build, TransactionBody.add, TransactionBuilder.signLoop,
      Signees.get, hs, sigsJson, pure, Except.pure, bind, Except.bind]
  · simp only [TransactionBuilder.get_pem] at hpem
    rcases hpp : key.publicPem with _ | p <;> rw [hpp] at hpem
    · cases hpem
    injection hpem with hp
    subst hp
    obtain ⟨sig, hs⟩ := hsig (Value.serialize (Value.obj
      [("$contract", Value.str "onboard"), ("$namespace", Value.str "default"),
       ("$i", Value.obj [(key.name, Value.obj [("type", Value.str "secp256k1"),
         ("publicKey", Value.str p)])])]))
    refine ⟨sig,
      [("$tx", Value.obj [("$contract", Value.str "onboard"),
          ("$namespace", Value.str "default"),
          ("$i", Value.obj [(key.name, Value.obj [("type", Value.str "secp256k1"),
            ("publicKey", Value.str p)])])]),
        ("$sigs", Value.obj [(key.name, Value.str sig)]),
        ("$selfsign", Value.str "true")],
      [("$contract", Value.str "onboard"), ("$namespace", Value.str "default"),
        ("$i", Value.obj [(key.name, Value.obj [("type", Value.str "secp256k1"),
          ("publicKey", Value.str p)])])],
      ?_, by simp [lookupKV], by simp [lookupKV], by simp [lookupKV],
      by simp [lookupKV], by simp [lookupKV, Key.name, Key.kindLabel],
      by simp [lookupKV, Key.name]⟩
    rw [TransactionBuilder.onboard_tx]
    simp [TransactionBuilder.get_pem, hpp, PacketBuilder.new, PacketBuilder.build,
      PacketData.new, PacketData.add_map, PacketData.get_map, PacketData.set_built,
      PacketBuilder.to_json, PacketBuilder.topEntries, PacketBuilder.object_tojson,
      PacketBuilder.objectEntries, insertKV, TransactionBuilder.new,
      TransactionBuilder.selfsign, TransactionBuilder.input, PacketData.get,
      Signees.new, Signees.add_selfsign, TransactionBuilder.build, lookupKV,
      TransactionBuilder.addExtras, checkedKeys, TransactionBody.new,
      TransactionBody.build, TransactionBody.add, TransactionBuilder.signLoop,
      Signees.get, hs, sigsJson, pure, Except.pure, bind, Except.bind]

/-- A concrete elliptic-curve key whose signer and PEM extraction succeed
(witness input for C8). -/
def c8Key : Key :=
  Key.Ec { name := "k", signFn := fun _ => some "SIG", publicPem := some "PEM" }

/-- Witness for C8 at the concrete key `c8Key`. -/
theorem onboard_tx_shape_witness :
    TransactionBuilder.get_pem c8Key = Except.ok "PEM" ∧
    (∀ d, ∃ sig, TransactionBuilder.sign_internal d c8Key = Except.ok sig) ∧
    ∃ sig env txm,
      TransactionBuilder.onboard_tx c8Key =
        some (Except.ok (Value.serialize (Value.obj env))) ∧
      lookupKV env "$tx" = some (Value.obj txm) ∧
      lookupKV txm "$contract" = some (Value.str "onboard") ∧
      lookupKV txm "$namespace" = some (Value.str "default") ∧
      lookupKV env "$selfsign" = some (Value.str "true") ∧
      lookupKV txm "$i" = some (Value.obj [(Key.name c8Key,
        Value.obj [("type", Value.str (Key.kindLabel c8Key)),
          ("publicKey", Value.str "PEM")])]) ∧
      lookupKV env "$sigs" = some (Value.obj [(Key.name c8Key, Value.str sig)]) :=
  ⟨rfl, fun d => ⟨"SIG", rfl⟩,
    onboard_tx_shape c8Key "PEM" rfl (fun d => ⟨"SIG", rfl⟩)⟩
